import Mathlib

/-!
Verification of the orbital/rotational kinematics engine of the
realistic-solar-system repository (src/src/js/main.js).

The per-frame kinematics of `SolarSystemApp.animate`, the GUI handlers of
`createGUI`, and the orbit construction of `createEarth` are embedded as
functions over the real numbers (JavaScript floating-point arithmetic is
modelled by exact real arithmetic).  Rotations follow the three.js
conventions used by the code: `rotateY`/`rotateX`/`rotateZ` right-multiply
the object quaternion, so after `rotation.set(0,0,0)` the sequence
`rotateY(a); rotateX(b)` acts on a vector `v` as `RY(a) (RX(b) v)`.
-/

/-- A 3-component vector, mirroring `THREE.Vector3`. -/
@[ext]
structure Vec3 where
  x : ℝ
  y : ℝ
  z : ℝ

namespace Vec3

/-- Component-wise addition (`THREE.Vector3.add`). -/
noncomputable def add (a b : Vec3) : Vec3 := ⟨a.x + b.x, a.y + b.y, a.z + b.z⟩

/-- Component-wise subtraction (`THREE.Vector3.sub` / `subVectors`). -/
noncomputable def sub (a b : Vec3) : Vec3 := ⟨a.x - b.x, a.y - b.y, a.z - b.z⟩

/-- Scalar multiple (`THREE.Vector3.multiplyScalar`). -/
noncomputable def smul (c : ℝ) (a : Vec3) : Vec3 := ⟨c * a.x, c * a.y, c * a.z⟩

/-- Dot product (`THREE.Vector3.dot`). -/
noncomputable def dot (a b : Vec3) : ℝ := a.x * b.x + a.y * b.y + a.z * b.z

/-- Squared Euclidean length (`THREE.Vector3.lengthSq`). -/
noncomputable def lengthSq (a : Vec3) : ℝ := a.x * a.x + a.y * a.y + a.z * a.z

/-- Euclidean length (`THREE.Vector3.length`). -/
noncomputable def length (a : Vec3) : ℝ := Real.sqrt a.lengthSq

/-- `THREE.Vector3.normalize`: divide by the length, or by 1 when the
length is zero (the JavaScript `this.length() || 1` guard). -/
noncomputable def normalize (a : Vec3) : Vec3 :=
  smul (1 / (if a.length = 0 then 1 else a.length)) a

end Vec3

/-- `main.js createEarth`: `const earthOrbitRadius = 20` (the semi-major
axis of the displayed orbit). -/
noncomputable def earthOrbitRadius : ℝ := 20

/-- `main.js createEarth`: `const earthOrbitEccentricity = 0.25`. -/
noncomputable def earthOrbitEccentricity : ℝ := 0.25

/-- The polar conic radius used throughout `main.js` for Earth's orbit with
general orbital elements: `r(θ) = a (1 − e²) / (1 + e cos θ)`. -/
noncomputable def orbitRadiusOf (a e angle : ℝ) : ℝ :=
  (a * (1 - e * e)) / (1 + e * Real.cos angle)

/-- The focus-relative point of the spec's `position(orbit, angle)`
contract with general orbital elements, exactly as `main.js` computes it
for Earth: `x = −r cos θ`, `y = 0`, `z = r sin θ`. -/
noncomputable def orbitPosition (a e angle : ℝ) : Vec3 :=
  ⟨-(orbitRadiusOf a e angle) * Real.cos angle, 0,
    (orbitRadiusOf a e angle) * Real.sin angle⟩

/-- `main.js createEarth`, `calcOrbitPoint(angle)`: the point on Earth's
displayed orbit (fixed `a = 20`, `e = 0.25`); the identical formula is
re-evaluated per frame in `animate` (lines 1099-1104). -/
noncomputable def calcOrbitPoint (angle : ℝ) : Vec3 :=
  let r := (earthOrbitRadius * (1 - earthOrbitEccentricity * earthOrbitEccentricity)) /
    (1 + earthOrbitEccentricity * Real.cos angle)
  ⟨-r * Real.cos angle, 0, r * Real.sin angle⟩

lemma calcOrbitPoint_eq_orbitPosition (angle : ℝ) :
    calcOrbitPoint angle = orbitPosition earthOrbitRadius earthOrbitEccentricity angle := rfl

/-- `main.js animate` (line 1085): `earthOrbitSpeed = earthRotationSpeed / 365.25`. -/
noncomputable def earthOrbitSpeedOf (earthRotationSpeed : ℝ) : ℝ :=
  earthRotationSpeed / 365.25

/-- `main.js animate` (line 1092): the orbital angle
`angle = elapsedTime * earthOrbitSpeed`. -/
noncomputable def earthAngleAt (elapsedTime earthRotationSpeed : ℝ) : ℝ :=
  elapsedTime * earthOrbitSpeedOf earthRotationSpeed

/-- `main.js animate` (line 1088): Earth's spin angle
`earth.rotation.y = elapsedTime * earthRotationSpeed`. -/
noncomputable def earthSpinAngleAt (elapsedTime earthRotationSpeed : ℝ) : ℝ :=
  elapsedTime * earthRotationSpeed

/-- `main.js animate` (line 1106): `earthGroup.position.set(earthX, 0, earthZ)`. -/
noncomputable def earthGroupPositionAt (elapsedTime earthRotationSpeed : ℝ) : Vec3 :=
  calcOrbitPoint (earthAngleAt elapsedTime earthRotationSpeed)

/-- The denominator of the conic equation is positive for `0 ≤ e < 1`. -/
lemma orbit_denom_pos (e angle : ℝ) (he0 : 0 ≤ e) (he1 : e < 1) :
    0 < 1 + e * Real.cos angle := by
  have h1 := Real.neg_one_le_cos angle
  have h2 := Real.cos_le_one angle
  nlinarith

lemma orbitRadiusOf_nonneg (a e angle : ℝ) (ha : 0 < a) (he0 : 0 ≤ e) (he1 : e < 1) :
    0 ≤ orbitRadiusOf a e angle := by
  have hden := orbit_denom_pos e angle he0 he1
  have hnum : 0 ≤ a * (1 - e * e) := by
    nlinarith [mul_pos (by linarith : (0:ℝ) < 1 - e) (by linarith : (0:ℝ) < 1 + e)]
  exact div_nonneg hnum hden.le

lemma orbitPosition_length (a e angle : ℝ)
    (ha : 0 < a) (he0 : 0 ≤ e) (he1 : e < 1) :
    Vec3.length (orbitPosition a e angle) = orbitRadiusOf a e angle := by
  have hr : 0 ≤ orbitRadiusOf a e angle := orbitRadiusOf_nonneg a e angle ha he0 he1
  have hsq : Vec3.lengthSq (orbitPosition a e angle) = (orbitRadiusOf a e angle) ^ 2 := by
    have hpyth := Real.sin_sq_add_cos_sq angle
    simp only [orbitPosition, Vec3.lengthSq]
    nlinarith [hpyth]
  rw [Vec3.length, hsq, Real.sqrt_sq hr]

/-- Claim C1: for orbital elements with `a > 0` and `0 ≤ e < 1`, the Orbit
Model position at any angle `θ` is the focus-relative point
`(−r cos θ, 0, r sin θ)` with `r = a (1 − e²) / (1 + e cos θ)`, and its
distance from the focus equals `r`. -/
theorem orbitPosition_conic_and_distance (a e angle : ℝ)
    (ha : 0 < a) (he0 : 0 ≤ e) (he1 : e < 1) :
    orbitPosition a e angle =
      ⟨-(orbitRadiusOf a e angle) * Real.cos angle, 0,
        (orbitRadiusOf a e angle) * Real.sin angle⟩ ∧
    Vec3.length (orbitPosition a e angle) = orbitRadiusOf a e angle :=
  ⟨rfl, orbitPosition_length a e angle ha he0 he1⟩

/-- Witness for C1 at the concrete input `a = 20`, `e = 0.25`, `θ = 0`. -/
theorem orbitPosition_conic_and_distance_witness :
    (0 : ℝ) < 20 ∧ (0 : ℝ) ≤ 0.25 ∧ (0.25 : ℝ) < 1 ∧
    Vec3.length (orbitPosition 20 0.25 0) = orbitRadiusOf 20 0.25 0 :=
  ⟨by norm_num, by norm_num, by norm_num,
    (orbitPosition_conic_and_distance 20 0.25 0 (by norm_num) (by norm_num) (by norm_num)).2⟩

/-- Claim C3: the orbital angular rate is derived from the spin rate as
`spin / 365.25`, so `orbit rate × 365.25 = spin rate` for every value of
the rotation-speed slider, and the per-frame angles satisfy the same
ratio. -/
theorem earth_spin_orbit_ratio (s t : ℝ) :
    earthOrbitSpeedOf s * 365.25 = s ∧
    earthAngleAt t s * 365.25 = earthSpinAngleAt t s := by
  constructor
  · unfold earthOrbitSpeedOf
    field_simp
  · unfold earthAngleAt earthOrbitSpeedOf earthSpinAngleAt
    field_simp

lemma calcOrbitPoint_zero : calcOrbitPoint 0 = ⟨-15, 0, 0⟩ := by
  simp only [calcOrbitPoint, earthOrbitRadius, earthOrbitEccentricity,
    Real.cos_zero, Real.sin_zero]
  norm_num

lemma calcOrbitPoint_pi : calcOrbitPoint Real.pi = ⟨25, 0, 0⟩ := by
  simp only [calcOrbitPoint, earthOrbitRadius, earthOrbitEccentricity,
    Real.cos_pi, Real.sin_pi]
  norm_num

/-- Claim C6: with `a = 20`, `e = 0.25` the perihelion (`θ = 0`) distance
is exactly 15 and the aphelion (`θ = π`) distance is exactly 25; at
`t = 0` with the default slider value 1 the orbital angle is 0 and Earth's
group sits at `(−15, 0, 0)`. -/
theorem perihelion_aphelion_and_initial_position :
    orbitRadiusOf 20 0.25 0 = 15 ∧
    Vec3.length (calcOrbitPoint 0) = 15 ∧
    orbitRadiusOf 20 0.25 Real.pi = 25 ∧
    Vec3.length (calcOrbitPoint Real.pi) = 25 ∧
    earthAngleAt 0 1 = 0 ∧
    earthGroupPositionAt 0 1 = ⟨-15, 0, 0⟩ := by
  have h0 : earthAngleAt 0 1 = 0 := by
    unfold earthAngleAt earthOrbitSpeedOf
    ring
  refine ⟨?_, ?_, ?_, ?_, h0, ?_⟩
  · unfold orbitRadiusOf
    rw [Real.cos_zero]
    norm_num
  · rw [calcOrbitPoint_zero]
    unfold Vec3.length Vec3.lengthSq
    rw [show ((-15 : ℝ) * -15 + 0 * 0 + 0 * 0) = 15 ^ 2 by norm_num]
    exact Real.sqrt_sq (by norm_num)
  · unfold orbitRadiusOf
    rw [Real.cos_pi]
    norm_num
  · rw [calcOrbitPoint_pi]
    unfold Vec3.length Vec3.lengthSq
    rw [show ((25 : ℝ) * 25 + 0 * 0 + 0 * 0) = 25 ^ 2 by norm_num]
    exact Real.sqrt_sq (by norm_num)
  · unfold earthGroupPositionAt
    rw [h0, calcOrbitPoint_zero]

/-- three.js `makeRotationY` applied to a vector:
`(x, y, z) ↦ (x cos a + z sin a, y, −x sin a + z cos a)`.  After
`rotation.set(0,0,0)`, `Object3D.rotateY(a)` contributes this action. -/
noncomputable def rotY (a : ℝ) (v : Vec3) : Vec3 :=
  ⟨v.x * Real.cos a + v.z * Real.sin a, v.y, -v.x * Real.sin a + v.z * Real.cos a⟩

/-- three.js `makeRotationX` applied to a vector:
`(x, y, z) ↦ (x, y cos a − z sin a, y sin a + z cos a)`. -/
noncomputable def rotX (a : ℝ) (v : Vec3) : Vec3 :=
  ⟨v.x, v.y * Real.cos a - v.z * Real.sin a, v.y * Real.sin a + v.z * Real.cos a⟩

/-- three.js `makeRotationZ` applied to a vector:
`(x, y, z) ↦ (x cos a − y sin a, x sin a + y cos a, z)`. -/
noncomputable def rotZ (a : ℝ) (v : Vec3) : Vec3 :=
  ⟨v.x * Real.cos a - v.y * Real.sin a, v.x * Real.sin a + v.y * Real.cos a, v.z⟩

lemma rotY_smul (a c : ℝ) (v : Vec3) : rotY a (Vec3.smul c v) = Vec3.smul c (rotY a v) := by
  simp only [rotY, Vec3.smul, Vec3.mk.injEq]
  refine ⟨by ring, by ring, by ring⟩

lemma rotX_smul (a c : ℝ) (v : Vec3) : rotX a (Vec3.smul c v) = Vec3.smul c (rotX a v) := by
  simp only [rotX, Vec3.smul, Vec3.mk.injEq]
  refine ⟨by ring, by ring, by ring⟩

lemma rotZ_smul (a c : ℝ) (v : Vec3) : rotZ a (Vec3.smul c v) = Vec3.smul c (rotZ a v) := by
  simp only [rotZ, Vec3.smul, Vec3.mk.injEq]
  refine ⟨by ring, by ring, by ring⟩

lemma rotY_lengthSq (a : ℝ) (v : Vec3) : Vec3.lengthSq (rotY a v) = Vec3.lengthSq v := by
  simp only [rotY, Vec3.lengthSq]
  nlinarith [Real.sin_sq_add_cos_sq a]

lemma rotX_lengthSq (a : ℝ) (v : Vec3) : Vec3.lengthSq (rotX a v) = Vec3.lengthSq v := by
  simp only [rotX, Vec3.lengthSq]
  nlinarith [Real.sin_sq_add_cos_sq a]

lemma rotZ_lengthSq (a : ℝ) (v : Vec3) : Vec3.lengthSq (rotZ a v) = Vec3.lengthSq v := by
  simp only [rotZ, Vec3.lengthSq]
  nlinarith [Real.sin_sq_add_cos_sq a]

/-- The state of a `THREE.Clock` instance (`main.js` line 96 creates one
with the default `autoStart = true`). -/
structure SimClock where
  autoStart : Bool
  startTime : ℝ
  oldTime : ℝ
  elapsedTime : ℝ
  running : Bool

namespace SimClock

/-- `THREE.Clock.start()` at wall-clock time `now` (milliseconds): resets
`elapsedTime` to 0 and marks the clock running. -/
noncomputable def start (c : SimClock) (now : ℝ) : SimClock :=
  { autoStart := c.autoStart, startTime := now, oldTime := now,
    elapsedTime := 0, running := true }

/-- `THREE.Clock.getDelta()` at wall-clock time `now`: returns the updated
clock and the delta in seconds.  When `autoStart` is set and the clock is
not running it starts the clock and returns 0. -/
noncomputable def getDelta (c : SimClock) (now : ℝ) : SimClock × ℝ :=
  if c.autoStart && !c.running then (c.start now, 0)
  else if c.running then
    ({ c with oldTime := now, elapsedTime := c.elapsedTime + (now - c.oldTime) / 1000 },
      (now - c.oldTime) / 1000)
  else (c, 0)

/-- `THREE.Clock.getElapsedTime()` at wall-clock time `now` (used at
`main.js` line 1070): advances via `getDelta` and returns `elapsedTime`. -/
noncomputable def getElapsedTime (c : SimClock) (now : ℝ) : SimClock × ℝ :=
  ((c.getDelta now).1, (c.getDelta now).1.elapsedTime)

/-- `THREE.Clock.stop()` at wall-clock time `now`: reads the elapsed time
once more, then clears `running` and `autoStart`. -/
noncomputable def stop (c : SimClock) (now : ℝ) : SimClock :=
  { (c.getElapsedTime now).1 with running := false, autoStart := false }

end SimClock

/-- `main.js` lines 819-827: the `pauseAnimation` checkbox `onChange`
handler calls `clock.stop()` when the new value is `true` and
`clock.start()` when it is `false`. -/
noncomputable def pauseAnimationOnChange (value : Bool) (c : SimClock) (now : ℝ) : SimClock :=
  if value then c.stop now else c.start now

/-- Claim C4, counterexample: start the clock at wall time 0, run to wall
time 5000 ms (elapsed 5 s), pause there, then resume at wall time
10000 ms.  The elapsed time read immediately after resuming is 0, not the
5 s held before pausing — `THREE.Clock.start()` resets `elapsedTime` to 0,
so resuming does not continue from the frozen value. -/
theorem pause_resume_counterexample :
    (SimClock.stop ((SimClock.getElapsedTime ((SimClock.getElapsedTime
        ⟨true, 0, 0, 0, false⟩ 0).1) 5000).1) 5000).elapsedTime = 5 ∧
    (SimClock.getElapsedTime (pauseAnimationOnChange false
        (SimClock.stop ((SimClock.getElapsedTime ((SimClock.getElapsedTime
          ⟨true, 0, 0, 0, false⟩ 0).1) 5000).1) 5000) 10000) 10000).2 = 0 ∧
    (0 : ℝ) ≠ 5 := by
  refine ⟨?_, ?_, by norm_num⟩ <;>
    simp [SimClock.getElapsedTime, SimClock.getDelta, SimClock.stop, SimClock.start,
      pauseAnimationOnChange] <;> norm_num

/-- Claim C4 (amended): pausing freezes `elapsedSeconds` at the value read
at the moment of the pause; a second pause leaves it unchanged (pause is
idempotent) and reads while paused keep returning the frozen value; but
resuming calls `THREE.Clock.start()`, which resets `elapsedSeconds` to 0
instead of continuing from the frozen value. -/
theorem pause_freeze_idempotent_resume_resets (c : SimClock) (t1 t2 t3 : ℝ) :
    (pauseAnimationOnChange true c t1).elapsedTime = (c.getElapsedTime t1).2 ∧
    (SimClock.getElapsedTime (pauseAnimationOnChange true c t1) t2).2 =
      (pauseAnimationOnChange true c t1).elapsedTime ∧
    (pauseAnimationOnChange true (pauseAnimationOnChange true c t1) t2).elapsedTime =
      (pauseAnimationOnChange true c t1).elapsedTime ∧
    (pauseAnimationOnChange false (pauseAnimationOnChange true c t1) t3).elapsedTime = 0 := by
  refine ⟨?_, ?_, ?_, ?_⟩ <;>
    simp [pauseAnimationOnChange, SimClock.stop, SimClock.getElapsedTime,
      SimClock.getDelta, SimClock.start]

/-- A quaternion `(x, y, z, w)`, mirroring `THREE.Quaternion`. -/
@[ext]
structure Quat where
  x : ℝ
  y : ℝ
  z : ℝ
  w : ℝ

namespace Quat

/-- `THREE.Quaternion.length()`. -/
noncomputable def length (q : Quat) : ℝ :=
  Real.sqrt (q.x * q.x + q.y * q.y + q.z * q.z + q.w * q.w)

/-- `THREE.Quaternion.normalize()`: the zero quaternion normalizes to the
identity `(0,0,0,1)`; otherwise every component is divided by the length. -/
noncomputable def normalize (q : Quat) : Quat :=
  if q.length = 0 then ⟨0, 0, 0, 1⟩
  else ⟨q.x * (1 / q.length), q.y * (1 / q.length), q.z * (1 / q.length),
    q.w * (1 / q.length)⟩

end Quat

/-- `Number.EPSILON` of JavaScript, `2⁻⁵²`. -/
noncomputable def numberEpsilon : ℝ := (2 : ℝ) ^ (-52 : ℤ)

/-- `THREE.Quaternion.setFromUnitVectors(vFrom, vTo)`: the shortest-arc
quaternion rotating the unit vector `vFrom` onto the unit vector `vTo`.
`r = vFrom·vTo + 1`; below `Number.EPSILON` the antiparallel branch picks
an arbitrary perpendicular axis, otherwise the axis is the cross product;
the result is normalized. -/
noncomputable def setFromUnitVectors (vFrom vTo : Vec3) : Quat :=
  Quat.normalize
    (if Vec3.dot vFrom vTo + 1 < numberEpsilon then
      (if |vFrom.x| > |vFrom.z| then ⟨-vFrom.y, vFrom.x, 0, 0⟩
        else ⟨0, -vFrom.z, vFrom.y, 0⟩)
    else
      ⟨vFrom.y * vTo.z - vFrom.z * vTo.y,
        vFrom.z * vTo.x - vFrom.x * vTo.z,
        vFrom.x * vTo.y - vFrom.y * vTo.x,
        Vec3.dot vFrom vTo + 1⟩)

/-- `THREE.Vector3.applyQuaternion(q)`:
`v + qw·t + q.xyz × t` with `t = 2 (q.xyz × v)`, written exactly as the
three.js component formula. -/
noncomputable def applyQuaternion (q : Quat) (v : Vec3) : Vec3 :=
  let tx := 2 * (q.y * v.z - q.z * v.y)
  let ty := 2 * (q.z * v.x - q.x * v.z)
  let tz := 2 * (q.x * v.y - q.y * v.x)
  ⟨v.x + q.w * tx + q.y * tz - q.z * ty,
    v.y + q.w * ty + q.z * tx - q.x * tz,
    v.z + q.w * tz + q.x * ty - q.y * tx⟩

/-- `main.js createMoon` (line 675): `moon.position.set(5, 0, 0)`; the moon
keeps this local position in its group for the whole run. -/
noncomputable def moonLocalPosition : Vec3 := ⟨5, 0, 0⟩

/-- `main.js animate` (line 1170): `moonToEarth = (0,0,0) − moon.position`,
normalized. -/
noncomputable def moonToEarth : Vec3 :=
  Vec3.normalize (Vec3.sub ⟨0, 0, 0⟩ moonLocalPosition)

/-- `main.js animate` (lines 1176-1182): the quaternion copied onto the
moon each frame, aligning the moon's local `+Z` axis `(0,0,1)` with
`moonToEarth`. -/
noncomputable def moonQuaternionFrame : Quat :=
  setFromUnitVectors ⟨0, 0, 1⟩ moonToEarth

/-- `main.js animate` (line 1159): the moon's orbital angular rate
`moonOrbitSpeed = earthOrbitSpeed * (365.25 / 27.32)`. -/
noncomputable def moonOrbitSpeedOf (earthRotationSpeed : ℝ) : ℝ :=
  earthOrbitSpeedOf earthRotationSpeed * (365.25 / 27.32)

/-- `main.js animate` (lines 1162-1166): the moon group is reset then
rotated with `rotateY(elapsedTime * moonOrbitSpeed)` and
`rotateX(5.1 * π / 180)`; the composite acts as `RY ∘ RX`. -/
noncomputable def moonGroupRotationAt (t s : ℝ) (v : Vec3) : Vec3 :=
  rotY (t * moonOrbitSpeedOf s) (rotX (5.1 * (Real.pi / 180)) v)

/-- `main.js animate` (lines 1109-1115): the earth group is reset then
rotated with `rotateZ(23.5 * π / 180)` and `rotateY(elapsedTime *
earthOrbitSpeed)`; the composite acts as `RZ ∘ RY`. -/
noncomputable def earthGroupRotationAt (t s : ℝ) (v : Vec3) : Vec3 :=
  rotZ (23.5 * (Real.pi / 180)) (rotY (t * earthOrbitSpeedOf s) v)

/-- The moon's world position: the earth group's position plus the moon's
local position taken through the moon-group and earth-group rotations
(`moonGroup.position` stays `(0,0,0)`). -/
noncomputable def moonWorldPositionAt (t s : ℝ) : Vec3 :=
  Vec3.add (earthGroupPositionAt t s)
    (earthGroupRotationAt t s (moonGroupRotationAt t s moonLocalPosition))

/-- Earth's world position (the earth mesh sits at its group's origin). -/
noncomputable def earthWorldPositionAt (t s : ℝ) : Vec3 :=
  earthGroupPositionAt t s

/-- The world direction of the moon's local `+Z` axis after the frame's
quaternion and the two group rotations are applied. -/
noncomputable def moonWorldZAxisAt (t s : ℝ) : Vec3 :=
  earthGroupRotationAt t s
    (moonGroupRotationAt t s (applyQuaternion moonQuaternionFrame ⟨0, 0, 1⟩))

lemma moonToEarth_eq : moonToEarth = ⟨-1, 0, 0⟩ := by
  have hlen : Vec3.length (Vec3.sub ⟨0, 0, 0⟩ moonLocalPosition) = 5 := by
    unfold Vec3.length Vec3.lengthSq Vec3.sub moonLocalPosition
    rw [show ((0 : ℝ) - 5) * ((0 : ℝ) - 5) + (0 - 0) * (0 - 0) + (0 - 0) * (0 - 0)
      = 5 ^ 2 by norm_num]
    exact Real.sqrt_sq (by norm_num)
  unfold moonToEarth Vec3.normalize
  rw [hlen]
  unfold Vec3.sub moonLocalPosition Vec3.smul
  norm_num

lemma moonQuaternionFrame_eq :
    moonQuaternionFrame = ⟨0, -(1 / Real.sqrt 2), 0, 1 / Real.sqrt 2⟩ := by
  have hc : ¬ (Vec3.dot ⟨0, 0, 1⟩ (⟨-1, 0, 0⟩ : Vec3) + 1 < numberEpsilon) := by
    unfold Vec3.dot numberEpsilon
    rw [zpow_neg]
    norm_num
  have hstep : moonQuaternionFrame = Quat.normalize ⟨0, -1, 0, 1⟩ := by
    unfold moonQuaternionFrame setFromUnitVectors
    rw [moonToEarth_eq, if_neg hc]
    norm_num [Vec3.dot]
  have hlen : Quat.length ⟨0, -1, 0, 1⟩ = Real.sqrt 2 := by
    unfold Quat.length
    norm_num
  rw [hstep]
  unfold Quat.normalize
  rw [hlen, if_neg (show ¬ Real.sqrt 2 = 0 by positivity)]
  simp only [Quat.mk.injEq]
  refine ⟨by ring, by ring, by ring, by ring⟩

lemma moon_axis_after_quaternion :
    applyQuaternion moonQuaternionFrame ⟨0, 0, 1⟩ = ⟨-1, 0, 0⟩ := by
  rw [moonQuaternionFrame_eq]
  unfold applyQuaternion
  have h2 : (1 / Real.sqrt 2) * (1 / Real.sqrt 2) = 1 / 2 := by
    rw [div_mul_div_comm, Real.mul_self_sqrt (by norm_num : (0:ℝ) ≤ 2)]
    norm_num
  simp only [Vec3.mk.injEq]
  refine ⟨?_, by ring, ?_⟩ <;> nlinarith [h2]

lemma Vec3_smul_smul (a b : ℝ) (v : Vec3) :
    Vec3.smul a (Vec3.smul b v) = Vec3.smul (a * b) v := by
  simp only [Vec3.smul, Vec3.mk.injEq]
  refine ⟨by ring, by ring, by ring⟩

lemma Vec3_smul_one (v : Vec3) : Vec3.smul 1 v = v := by
  simp only [Vec3.smul, one_mul]

lemma compositeRotation_smul (t s c : ℝ) (v : Vec3) :
    earthGroupRotationAt t s (moonGroupRotationAt t s (Vec3.smul c v)) =
      Vec3.smul c (earthGroupRotationAt t s (moonGroupRotationAt t s v)) := by
  unfold earthGroupRotationAt moonGroupRotationAt
  rw [rotX_smul, rotY_smul, rotY_smul, rotZ_smul]

lemma compositeRotation_length (t s : ℝ) (v : Vec3) :
    Vec3.length (earthGroupRotationAt t s (moonGroupRotationAt t s v)) = Vec3.length v := by
  unfold Vec3.length earthGroupRotationAt moonGroupRotationAt
  rw [rotZ_lengthSq, rotY_lengthSq, rotY_lengthSq, rotX_lengthSq]

/-- Claim C2: at every elapsed time and for every slider value (hence over
every moon orbital phase), the moon's local `+Z` axis — after the
shortest-arc quaternion applied by the frame and the two group rotations —
points exactly along the normalized vector from the moon's world position
to the Earth's world position, with no independent spin component. -/
theorem moon_tidal_lock (t s : ℝ) :
    moonWorldZAxisAt t s =
      Vec3.normalize (Vec3.sub (earthWorldPositionAt t s) (moonWorldPositionAt t s)) := by
  have hsub : Vec3.sub (earthWorldPositionAt t s) (moonWorldPositionAt t s) =
      earthGroupRotationAt t s (moonGroupRotationAt t s ⟨-5, 0, 0⟩) := by
    unfold earthWorldPositionAt moonWorldPositionAt
    rw [show (⟨-5, 0, 0⟩ : Vec3) = Vec3.smul (-1) moonLocalPosition by
      unfold moonLocalPosition Vec3.smul
      norm_num]
    rw [compositeRotation_smul]
    unfold Vec3.sub Vec3.add Vec3.smul
    simp only [Vec3.mk.injEq]
    refine ⟨by ring, by ring, by ring⟩
  rw [hsub]
  have hlen : Vec3.length (earthGroupRotationAt t s (moonGroupRotationAt t s ⟨-5, 0, 0⟩)) = 5 := by
    rw [compositeRotation_length]
    unfold Vec3.length Vec3.lengthSq
    rw [show ((-5 : ℝ) * (-5) + 0 * 0 + 0 * 0) = 5 ^ 2 by norm_num]
    exact Real.sqrt_sq (by norm_num)
  unfold Vec3.normalize
  rw [hlen, if_neg (by norm_num : ¬ (5 : ℝ) = 0)]
  rw [show (⟨-5, 0, 0⟩ : Vec3) = Vec3.smul 5 ⟨-1, 0, 0⟩ by
    unfold Vec3.smul
    norm_num]
  rw [compositeRotation_smul]
  unfold moonWorldZAxisAt
  rw [moon_axis_after_quaternion, Vec3_smul_smul]
  rw [show (1 : ℝ) / 5 * 5 = 1 by norm_num]
  rw [Vec3_smul_one]

lemma orbitRadiusOf_earth_pos (angle : ℝ) : 0 < orbitRadiusOf 20 0.25 angle := by
  have hden := orbit_denom_pos 0.25 angle (by norm_num) (by norm_num)
  unfold orbitRadiusOf
  positivity

lemma calcOrbitPoint_length (angle : ℝ) :
    Vec3.length (calcOrbitPoint angle) = orbitRadiusOf 20 0.25 angle := by
  rw [calcOrbitPoint_eq_orbitPosition]
  unfold earthOrbitRadius earthOrbitEccentricity
  exact orbitPosition_length 20 0.25 angle (by norm_num) (by norm_num) (by norm_num)

lemma Vec3_sub_zero (a : Vec3) : Vec3.sub a ⟨0, 0, 0⟩ = a := by
  simp only [Vec3.sub, sub_zero]

lemma Vec3_sub_sub_self (a b : Vec3) : Vec3.sub a (Vec3.sub a b) = b := by
  simp only [Vec3.sub, sub_sub_cancel]

/-- `main.js animate` (line 1124): the unit vector
`sunToEarth = normalize(earthGroup.position − (0,0,0))`. -/
noncomputable def sunToEarthUnit (t s : ℝ) : Vec3 :=
  Vec3.normalize (Vec3.sub (earthGroupPositionAt t s) ⟨0, 0, 0⟩)

/-- `main.js animate` (lines 1129-1131): the primary directional light is
moved to `earthGroup.position − sunToEarth * 10` and aimed at the earth
group. -/
noncomputable def sunDirectionalLightPositionAt (t s : ℝ) : Vec3 :=
  Vec3.sub (earthGroupPositionAt t s) (Vec3.smul 10 (sunToEarthUnit t s))

/-- `main.js animate` (line 1136): `offsetAngle = π / 12`. -/
noncomputable def offsetAngle : ℝ := Real.pi / 12

/-- `main.js animate` (lines 1137-1141):
`offsetVector = normalize (sin offsetAngle, cos offsetAngle, 0)`. -/
noncomputable def offsetVector : Vec3 :=
  Vec3.normalize ⟨Real.sin offsetAngle, Real.cos offsetAngle, 0⟩

/-- `main.js animate` (lines 1144-1147): the secondary light's position.
`sunToEarth` was already scaled in place by 10 while positioning the
primary light (the JavaScript `multiplyScalar` mutates), so its clone
scaled by 8 contributes `80 * sunToEarthUnit`. -/
noncomputable def secondDirectionalLightPositionAt (t s : ℝ) : Vec3 :=
  Vec3.sub (earthGroupPositionAt t s)
    (Vec3.add (Vec3.smul 8 (Vec3.smul 10 (sunToEarthUnit t s))) (Vec3.smul 2 offsetVector))

/-- Claim C8: each frame the primary directional light's position is
`bodyPosition − normalize(bodyPosition − sunPosition) * 10` and the light
targets the body, so the illumination direction (target minus light
position) is a positive multiple of the Sun-to-body vector at every
orbital phase; the secondary light is displaced by an offset built from
the fixed angle `π / 12`.  Every quantity is recomputed from `t` and the
slider value alone — no state crosses frames. -/
theorem light_direction_tracks_sun (t s : ℝ) :
    sunDirectionalLightPositionAt t s =
      Vec3.sub (earthGroupPositionAt t s)
        (Vec3.smul 10 (Vec3.normalize (Vec3.sub (earthGroupPositionAt t s) ⟨0, 0, 0⟩))) ∧
    (∃ c : ℝ, 0 < c ∧
      Vec3.sub (earthGroupPositionAt t s) (sunDirectionalLightPositionAt t s) =
        Vec3.smul c (Vec3.sub (earthGroupPositionAt t s) ⟨0, 0, 0⟩)) ∧
    secondDirectionalLightPositionAt t s =
      Vec3.sub (earthGroupPositionAt t s)
        (Vec3.add (Vec3.smul 80 (sunToEarthUnit t s))
          (Vec3.smul 2 (Vec3.normalize ⟨Real.sin (Real.pi / 12), Real.cos (Real.pi / 12), 0⟩))) := by
  have hr : 0 < orbitRadiusOf 20 0.25 (earthAngleAt t s) := orbitRadiusOf_earth_pos _
  have hlen : Vec3.length (Vec3.sub (earthGroupPositionAt t s) ⟨0, 0, 0⟩) =
      orbitRadiusOf 20 0.25 (earthAngleAt t s) := by
    rw [Vec3_sub_zero]
    exact calcOrbitPoint_length _
  refine ⟨rfl, ?_, ?_⟩
  · refine ⟨10 * (1 / orbitRadiusOf 20 0.25 (earthAngleAt t s)), by positivity, ?_⟩
    unfold sunDirectionalLightPositionAt
    rw [Vec3_sub_sub_self]
    unfold sunToEarthUnit Vec3.normalize
    rw [hlen, if_neg (ne_of_gt hr), Vec3_sub_zero, Vec3_smul_smul]
  · unfold secondDirectionalLightPositionAt offsetVector offsetAngle
    rw [Vec3_smul_smul]
    rw [show (8 : ℝ) * 10 = 80 by norm_num]

/-- `main.js createGUI` (lines 805-812): the user-tunable speed controls
(`earthRotationSpeed` defaults to 1, `pauseAnimation` to `false`). -/
structure SpeedControls where
  earthRotationSpeed : ℝ
  pauseAnimation : Bool

/-- `main.js animate` (lines 1074-1076): the sun's spin angle
`elapsedTime * baseSunRotation * (earthRotationSpeed / 73.05)` with
`baseSunRotation = 0.05`. -/
noncomputable def sunRotationYAt (t s : ℝ) : ℝ := t * (0.05 * (s / 73.05))

/-- `main.js animate` (line 1089): the cloud layer's spin angle
`elapsedTime * (earthRotationSpeed * 0.9)`. -/
noncomputable def cloudsRotationYAt (t s : ℝ) : ℝ := t * (s * 0.9)

/-- Every mutable transform field that `SolarSystemApp.animate` writes each
frame: rotations and positions of the Sun, Earth, clouds, the earth and
moon groups, the moon and its facing marker, the two directional lights,
and the atmosphere uniforms.  Fields the program never writes after scene
construction (such as `earth.rotation.x`) are constants, not state. -/
structure FrameState where
  sunRotationY : ℝ
  earthRotationY : ℝ
  cloudsRotationY : ℝ
  earthGroupPosition : Vec3
  earthGroupRotation : Vec3 → Vec3
  moonGroupRotation : Vec3 → Vec3
  moonQuaternion : Quat
  moonFaceMarkPosition : Vec3
  sunLightPosition : Vec3
  secondLightPosition : Vec3
  atmosphereIntensity : ℝ
  atmosphereSunPosition : Vec3
  speedUpFactor : ℝ

/-- One invocation of `SolarSystemApp.animate` (lines 1069-1227) with
elapsed time `t` and the current speed controls `p`, acting on the
previous frame's state: every field is overwritten with a value computed
from `t` and `p` alone (each rotation is reset with `rotation.set(0,0,0)`
or assigned before being rebuilt, each position is `set`/`copy`-assigned,
the moon quaternion is `copy`-assigned and the atmosphere uniforms are
reassigned). -/
noncomputable def animateFrame (prev : FrameState) (t : ℝ) (p : SpeedControls) : FrameState where
  sunRotationY := sunRotationYAt t p.earthRotationSpeed
  earthRotationY := earthSpinAngleAt t p.earthRotationSpeed
  cloudsRotationY := cloudsRotationYAt t p.earthRotationSpeed
  earthGroupPosition := earthGroupPositionAt t p.earthRotationSpeed
  earthGroupRotation := earthGroupRotationAt t p.earthRotationSpeed
  moonGroupRotation := moonGroupRotationAt t p.earthRotationSpeed
  moonQuaternion := moonQuaternionFrame
  moonFaceMarkPosition := ⟨0, 0, 0.6⟩
  sunLightPosition := sunDirectionalLightPositionAt t p.earthRotationSpeed
  secondLightPosition := secondDirectionalLightPositionAt t p.earthRotationSpeed
  atmosphereIntensity := 0.8
  atmosphereSunPosition := ⟨0, 0, 0⟩
  speedUpFactor := p.earthRotationSpeed / 0.2

/-- Claim C5: the per-frame transforms are a pure function of the elapsed
time and the current parameters — two evaluations of the frame step from
arbitrary (even different) previous states produce identical positions and
orientations for every body, so no hidden state accumulates across
frames. -/
theorem animateFrame_deterministic (prev1 prev2 : FrameState) (t : ℝ) (p : SpeedControls) :
    animateFrame prev1 t p = animateFrame prev2 t p := rfl

/-- `main.js createGUI` (line 835): the atmosphere-intensity slider writes
the chosen value straight into the atmosphere uniform. -/
noncomputable def guiSetAtmosphereIntensity (st : FrameState) (value : ℝ) : FrameState :=
  { st with atmosphereIntensity := value }

/-- Claim C9: whatever intensity the GUI slider stored, the next frame
step overwrites the atmosphere uniform with the constant 0.8 (line 1219),
so GUI changes to atmosphere intensity never survive a frame. -/
theorem atmosphere_intensity_overwritten (st : FrameState) (value t : ℝ) (p : SpeedControls) :
    (animateFrame (guiSetAtmosphereIntensity st value) t p).atmosphereIntensity = 0.8 ∧
    (animateFrame st t p).atmosphereIntensity = 0.8 :=
  ⟨rfl, rfl⟩

/-- The engine-level parameter keys whose ranges the GUI declares. -/
inductive ParamKey where
  | rotationSpeedMultiplier
  | moonOrbitInclinationDeg

/-- The documented lower bounds: `main.js createGUI` declares the speed
slider with range 0..200 (line 815) and the moon-orbit-inclination slider
with range 0..10 (line 845). -/
noncomputable def paramLo : ParamKey → ℝ
  | ParamKey.rotationSpeedMultiplier => 0
  | ParamKey.moonOrbitInclinationDeg => 0

/-- The documented upper bounds of the two sliders. -/
noncomputable def paramHi : ParamKey → ℝ
  | ParamKey.rotationSpeedMultiplier => 200
  | ParamKey.moonOrbitInclinationDeg => 10

/-- The stored parameter values. -/
structure ParameterStore where
  rotationSpeedMultiplier : ℝ
  moonOrbitInclinationDeg : ℝ

/-- Modelled from the spec: the error taxonomy of §7 — `InvalidParameter`
is the only engine-level error; no engine-level error type exists in the
repository source. -/
inductive EngineError where
  | invalidParameter

noncomputable def ParameterStore.update (st : ParameterStore) (k : ParamKey) (value : ℝ) :
    ParameterStore :=
  match k with
  | ParamKey.rotationSpeedMultiplier => { st with rotationSpeedMultiplier := value }
  | ParamKey.moonOrbitInclinationDeg => { st with moonOrbitInclinationDeg := value }

/-- Modelled from the spec: the Parameter Store operation `set(key, value)`
of §4.4, which validates the value against the field's declared range and
fails with `InvalidParameter` on an out-of-range value; the repository
source has no engine-level Parameter Store — only the GUI controls that
declare the ranges — so the operation follows the spec's words with the
ranges read off the GUI slider declarations. -/
noncomputable def ParameterStore.set (st : ParameterStore) (k : ParamKey) (value : ℝ) :
    Except EngineError ParameterStore :=
  if paramLo k ≤ value ∧ value ≤ paramHi k then Except.ok (st.update k value)
  else Except.error EngineError.invalidParameter

/-- The store visible after a `set` call: the updated store on success and
the untouched prior store when `set` errors. -/
noncomputable def ParameterStore.afterSet (st : ParameterStore) (k : ParamKey) (value : ℝ) :
    ParameterStore :=
  match st.set k value with
  | Except.ok st2 => st2
  | Except.error _ => st

/-- Claim C7: setting a parameter to a value outside its documented range
fails with `InvalidParameter`, the value is rejected and the prior stored
value is retained unchanged, and `InvalidParameter` is the only
engine-level error. -/
theorem invalid_parameter_rejected (st : ParameterStore) (k : ParamKey) (value : ℝ)
    (hout : value < paramLo k ∨ paramHi k < value) :
    ParameterStore.set st k value = Except.error EngineError.invalidParameter ∧
    ParameterStore.afterSet st k value = st ∧
    ∀ e : EngineError, e = EngineError.invalidParameter := by
  have hc : ¬ (paramLo k ≤ value ∧ value ≤ paramHi k) := by
    rcases hout with h | h
    · intro hh
      linarith [hh.1]
    · intro hh
      linarith [hh.2]
  have hset : ParameterStore.set st k value = Except.error EngineError.invalidParameter := by
    unfold ParameterStore.set
    rw [if_neg hc]
  refine ⟨hset, ?_, ?_⟩
  · unfold ParameterStore.afterSet
    rw [hset]
  · intro e
    cases e
    rfl

/-- Witness for C7: the speed multiplier set to 300 (above its documented
maximum 200) from the default store is rejected and the store keeps its
prior values. -/
theorem invalid_parameter_rejected_witness :
    paramHi ParamKey.rotationSpeedMultiplier < 300 ∧
    ParameterStore.set ⟨1, 5.1⟩ ParamKey.rotationSpeedMultiplier 300 =
      Except.error EngineError.invalidParameter ∧
    ParameterStore.afterSet ⟨1, 5.1⟩ ParamKey.rotationSpeedMultiplier 300 = ⟨1, 5.1⟩ := by
  have h := invalid_parameter_rejected ⟨1, 5.1⟩ ParamKey.rotationSpeedMultiplier 300
    (Or.inr (by unfold paramHi; norm_num))
  exact ⟨by unfold paramHi; norm_num, h.1, h.2.1⟩

/-- `main.js createGUI` (lines 847-857): the moon-orbit-inclination
`onChange` handler resets the moon group's rotation, then applies
`rotateY(elapsedTime * moonOrbitSpeed)` computed from a hardcoded
`earthOrbitSpeed = 0.2` — not the current slider value — followed by
`rotateX(value * π / 180)` with the new inclination `value`. -/
noncomputable def moonInclinationHandlerRotation (elapsedTime value : ℝ) (v : Vec3) : Vec3 :=
  rotY (elapsedTime * (0.2 * (365.25 / 27.32))) (rotX (value * Real.pi / 180) v)

lemma rotX_e1 (b : ℝ) : rotX b ⟨1, 0, 0⟩ = ⟨1, 0, 0⟩ := by
  simp [rotX]

lemma rotY_e1 (a : ℝ) : rotY a ⟨1, 0, 0⟩ = ⟨Real.cos a, 0, -Real.sin a⟩ := by
  simp [rotY]

lemma rotX_e2 (b : ℝ) : rotX b ⟨0, 1, 0⟩ = ⟨0, Real.cos b, Real.sin b⟩ := by
  simp [rotX]

lemma rotY_yz (a c d : ℝ) : rotY a ⟨0, c, d⟩ = ⟨d * Real.sin a, c, d * Real.cos a⟩ := by
  simp [rotY]

lemma cos_sin_eq_exists_int {a b : ℝ} (hc : Real.cos a = Real.cos b)
    (hs : Real.sin a = Real.sin b) : ∃ k : ℤ, a - b = 2 * Real.pi * k :=
  Real.Angle.angle_eq_iff_two_pi_dvd_sub.mp (Real.Angle.cos_sin_inj hc hs)

lemma rotY_congr {a1 a2 : ℝ} (hc : Real.cos a1 = Real.cos a2)
    (hs : Real.sin a1 = Real.sin a2) (v : Vec3) : rotY a1 v = rotY a2 v := by
  unfold rotY
  rw [hc, hs]

/-- Claim C10, counterexample: at `elapsedTime = 0`, inclination input 0
and `earthRotationSpeed = 73.05`, the right side of the claimed
equivalence holds (the speed is exactly 73.05), yet the transform the
handler sets differs from the transform the frame loop computes, because
the handler applies `rotateX` with the new inclination 0 while the loop
hardcodes 5.1 degrees. -/
theorem moon_inclination_handler_counterexample :
    ((73.05 : ℝ) = 73.05 ∨ ∃ k : ℤ,
      (0.2 * (365.25 / 27.32) - earthOrbitSpeedOf 73.05 * (365.25 / 27.32)) * 0
        = 2 * Real.pi * k) ∧
    moonInclinationHandlerRotation 0 0 ≠ moonGroupRotationAt 0 73.05 := by
  refine ⟨Or.inl rfl, ?_⟩
  intro h
  have hb : 0 < Real.sin (5.1 * (Real.pi / 180)) := by
    apply Real.sin_pos_of_pos_of_lt_pi
    · positivity
    · nlinarith [Real.pi_pos]
  have hL : moonInclinationHandlerRotation 0 0 ⟨0, 1, 0⟩ = ⟨0, 1, 0⟩ := by
    unfold moonInclinationHandlerRotation
    rw [show (0 : ℝ) * (0.2 * (365.25 / 27.32)) = 0 by ring,
      show (0 : ℝ) * Real.pi / 180 = 0 by ring]
    simp [rotX, rotY]
  have hR : moonGroupRotationAt 0 73.05 ⟨0, 1, 0⟩ =
      ⟨0, Real.cos (5.1 * (Real.pi / 180)), Real.sin (5.1 * (Real.pi / 180))⟩ := by
    unfold moonGroupRotationAt
    rw [show (0 : ℝ) * moonOrbitSpeedOf 73.05 = 0 by ring, rotX_e2]
    simp [rotY]
  have happ := congrFun h ⟨0, 1, 0⟩
  rw [hL, hR] at happ
  have hz : (0 : ℝ) = Real.sin (5.1 * (Real.pi / 180)) := congrArg Vec3.z happ
  exact absurd hz.symm (ne_of_gt hb)

/-- Claim C10 (amended): for inclination inputs within the documented
range 0..10, the transform the inclination handler sets equals the
transform the frame loop computes for the same elapsed time and slider
speed if and only if the difference between the handler's hardcoded
moon-orbit rate (from `earthOrbitSpeed = 0.2`, i.e.
`earthRotationSpeed = 73.05`) and the loop's moon-orbit rate, times the
elapsed time, is an integer multiple of `2π` — and, in addition, the
inclination input equals the 5.1 degrees the frame loop hardcodes. -/
theorem moon_inclination_handler_vs_frame (t value s : ℝ)
    (hv0 : 0 ≤ value) (hv1 : value ≤ 10) :
    moonInclinationHandlerRotation t value = moonGroupRotationAt t s ↔
      ((∃ k : ℤ, (0.2 * (365.25 / 27.32) - earthOrbitSpeedOf s * (365.25 / 27.32)) * t
          = 2 * Real.pi * k) ∧ value = 5.1) := by
  constructor
  · intro h
    have h100 := congrFun h ⟨1, 0, 0⟩
    unfold moonInclinationHandlerRotation moonGroupRotationAt at h100
    rw [rotX_e1, rotX_e1, rotY_e1, rotY_e1] at h100
    have hc : Real.cos (t * (0.2 * (365.25 / 27.32)))
        = Real.cos (t * moonOrbitSpeedOf s) := congrArg Vec3.x h100
    have hzc : -Real.sin (t * (0.2 * (365.25 / 27.32)))
        = -Real.sin (t * moonOrbitSpeedOf s) := congrArg Vec3.z h100
    have hsn : Real.sin (t * (0.2 * (365.25 / 27.32)))
        = Real.sin (t * moonOrbitSpeedOf s) := neg_injective hzc
    obtain ⟨k, hk⟩ := cos_sin_eq_exists_int hc hsn
    simp only [moonOrbitSpeedOf] at hk
    have h010 := congrFun h ⟨0, 1, 0⟩
    unfold moonInclinationHandlerRotation moonGroupRotationAt at h010
    rw [rotX_e2, rotX_e2, rotY_yz, rotY_yz] at h010
    have hcb : Real.cos (value * Real.pi / 180)
        = Real.cos (5.1 * (Real.pi / 180)) := congrArg Vec3.y h010
    have hpi := Real.pi_pos
    have hb1 : value * Real.pi / 180 ∈ Set.Icc 0 Real.pi := by
      constructor
      · positivity
      · rw [div_le_iff₀ (by norm_num : (0:ℝ) < 180)]
        nlinarith
    have hb2 : 5.1 * (Real.pi / 180) ∈ Set.Icc 0 Real.pi := by
      constructor
      · positivity
      · nlinarith
    have hbeq : value * Real.pi / 180 = 5.1 * (Real.pi / 180) :=
      Real.injOn_cos hb1 hb2 hcb
    have hval : value = 5.1 := by
      field_simp at hbeq
      rcases hbeq with hv | hv
      · exact hv
      · exact absurd hv (ne_of_gt hpi)
    exact ⟨⟨k, by linear_combination hk⟩, hval⟩
  · rintro ⟨⟨k, hk⟩, hval⟩
    subst hval
    have ha : t * (0.2 * (365.25 / 27.32))
        = t * moonOrbitSpeedOf s + k * (2 * Real.pi) := by
      simp only [moonOrbitSpeedOf]
      linear_combination hk
    have hc : Real.cos (t * (0.2 * (365.25 / 27.32)))
        = Real.cos (t * moonOrbitSpeedOf s) := by
      rw [ha, Real.cos_add_int_mul_two_pi]
    have hsn : Real.sin (t * (0.2 * (365.25 / 27.32)))
        = Real.sin (t * moonOrbitSpeedOf s) := by
      rw [ha, Real.sin_add_int_mul_two_pi]
    funext w
    unfold moonInclinationHandlerRotation moonGroupRotationAt
    rw [show (5.1 : ℝ) * Real.pi / 180 = 5.1 * (Real.pi / 180) by ring]
    exact rotY_congr hc hsn (rotX (5.1 * (Real.pi / 180)) w)

/-- Witness for the amended C10 at `t = 0`, inclination 5.1 and slider
speed 1: both sides of the equivalence hold (with `k = 0`). -/
theorem moon_inclination_handler_vs_frame_witness :
    (0 : ℝ) ≤ 5.1 ∧ (5.1 : ℝ) ≤ 10 ∧
    (moonInclinationHandlerRotation 0 5.1 = moonGroupRotationAt 0 1 ↔
      ((∃ k : ℤ, (0.2 * (365.25 / 27.32) - earthOrbitSpeedOf 1 * (365.25 / 27.32)) * 0
          = 2 * Real.pi * k) ∧ (5.1 : ℝ) = 5.1)) :=
  ⟨by norm_num, by norm_num,
    moon_inclination_handler_vs_frame 0 5.1 1 (by norm_num) (by norm_num)⟩
